import Mathlib

/-!
Verification development for the oatmeal geometry and grid library
(point.h, vector.h, grid.h).

Embedding conventions:
* the C++ type int (components of Point, loop counters) is modelled by
  unbounded Int; signed overflow is undefined behaviour in the source and
  is idealised away;
* the C++ type size_t (x_count, y_count, component indices) is modelled by
  Nat; where the source compares an int against a size_t the implicit
  conversion to the unsigned 64-bit type is modelled explicitly
  (see cppToSizeT);
* the C++ type float (components of Vec2 and Vec3) is modelled by Real:
  idealised arithmetic without rounding;
* a C++ function that throws is modelled as returning Except String, the
  string being the message passed to the exception's constructor;
* std::vector cells are modelled as a List together with the length
  invariant the Grid constructors establish.
-/

namespace Oatmeal

/-- Conversion of a C++ int value to size_t: reduction modulo 2^64
(two's-complement wraparound for negative values). -/
def cppToSizeT (i : Int) : Nat := (i % (2 ^ 64 : Int)).toNat

/-- Embeds struct Point (point.h): a 2d point with int components x, y. -/
structure Point where
  x : Int
  y : Int
deriving DecidableEq, Repr

namespace Point

/-- Embeds the unary friend operator- of Point: componentwise negation. -/
def neg (p : Point) : Point := ⟨-p.x, -p.y⟩

/-- Embeds operator+ of Point (via operator+=): componentwise addition. -/
def add (a b : Point) : Point := ⟨a.x + b.x, a.y + b.y⟩

/-- Embeds operator- of Point (via operator-=): componentwise subtraction. -/
def sub (a b : Point) : Point := ⟨a.x - b.x, a.y - b.y⟩

/-- Embeds operator* of Point (via operator*=): each component is
multiplied by the int scalar rhs. -/
def smul (a : Point) (k : Int) : Point := ⟨a.x * k, a.y * k⟩

/-- Embeds operator/ of Point (via operator/=): each component is divided
by the int scalar rhs; C++ int division truncates toward zero, which is
Int.tdiv. -/
def sdiv (a : Point) (k : Int) : Point := ⟨a.x.tdiv k, a.y.tdiv k⟩

/-- Embeds the reading use of the Point operator[] switch: index 0 gives
x, index 1 gives y, any other index throws std::out_of_range with message
component_index.  The index has type size_t, hence Nat. -/
def getComp (p : Point) : Nat → Except String Int
  | 0 => .ok p.x
  | 1 => .ok p.y
  | _ => .error "component_index"

/-- Embeds the writing use of the non-const Point operator[] (assignment
through the returned reference): index 0 replaces x, index 1 replaces y,
any other index throws std::out_of_range before any component changes. -/
def setComp (p : Point) (i : Nat) (v : Int) : Except String Point :=
  match i with
  | 0 => .ok ⟨v, p.y⟩
  | 1 => .ok ⟨p.x, v⟩
  | _ => .error "component_index"

end Point

/-- Embeds the free function abs(const Point&) of point.h: componentwise
std::abs. -/
def pointAbs (p : Point) : Point := ⟨|p.x|, |p.y|⟩

/-- Embeds template TVec2 of vector.h: a 2d vector over a numeric
component type. -/
structure TVec2 (α : Type) where
  x : α
  y : α
deriving DecidableEq, Repr

namespace TVec2

variable {α : Type}

/-- Embeds the unary friend operator- of TVec2. -/
def neg [Neg α] (v : TVec2 α) : TVec2 α := ⟨-v.x, -v.y⟩

/-- Embeds operator+ of TVec2 (via operator+=). -/
def add [Add α] (a b : TVec2 α) : TVec2 α := ⟨a.x + b.x, a.y + b.y⟩

/-- Embeds operator- of TVec2 (via operator-=). -/
def sub [Sub α] (a b : TVec2 α) : TVec2 α := ⟨a.x - b.x, a.y - b.y⟩

/-- Embeds operator* of TVec2 (via operator*=): scalar multiplication. -/
def smul [Mul α] (a : TVec2 α) (k : α) : TVec2 α := ⟨a.x * k, a.y * k⟩

/-- Embeds operator/ of TVec2 (via operator/=): componentwise division by
the scalar rhs, in the component type's division. -/
def sdiv [Div α] (a : TVec2 α) (k : α) : TVec2 α := ⟨a.x / k, a.y / k⟩

/-- Embeds the reading use of the TVec2 operator[] switch. -/
def getComp (v : TVec2 α) : Nat → Except String α
  | 0 => .ok v.x
  | 1 => .ok v.y
  | _ => .error "component_index"

/-- Embeds the writing use of the non-const TVec2 operator[]. -/
def setComp (v : TVec2 α) (i : Nat) (a : α) : Except String (TVec2 α) :=
  match i with
  | 0 => .ok ⟨a, v.y⟩
  | 1 => .ok ⟨v.x, a⟩
  | _ => .error "component_index"

/-- Embeds the free function abs(const TVec2&) of vector.h. -/
def vabs [Lattice α] [AddGroup α] (v : TVec2 α) : TVec2 α := ⟨|v.x|, |v.y|⟩

end TVec2

/-- Embeds template TVec3 of vector.h: a 3d vector over a numeric
component type. -/
structure TVec3 (α : Type) where
  x : α
  y : α
  z : α
deriving DecidableEq, Repr

namespace TVec3

variable {α : Type}

/-- Embeds the unary friend operator- of TVec3. -/
def neg [Neg α] (v : TVec3 α) : TVec3 α := ⟨-v.x, -v.y, -v.z⟩

/-- Embeds operator+ of TVec3 (via operator+=). -/
def add [Add α] (a b : TVec3 α) : TVec3 α := ⟨a.x + b.x, a.y + b.y, a.z + b.z⟩

/-- Embeds operator- of TVec3 (via operator-=). -/
def sub [Sub α] (a b : TVec3 α) : TVec3 α := ⟨a.x - b.x, a.y - b.y, a.z - b.z⟩

/-- Embeds operator* of TVec3 (via operator*=): scalar multiplication. -/
def smul [Mul α] (a : TVec3 α) (k : α) : TVec3 α := ⟨a.x * k, a.y * k, a.z * k⟩

/-- Embeds operator/ of TVec3 (via operator/=): componentwise division by
the scalar rhs. -/
def sdiv [Div α] (a : TVec3 α) (k : α) : TVec3 α := ⟨a.x / k, a.y / k, a.z / k⟩

/-- Embeds the reading use of the TVec3 operator[] switch: indices 0, 1, 2
give x, y, z; any other index throws std::out_of_range. -/
def getComp (v : TVec3 α) : Nat → Except String α
  | 0 => .ok v.x
  | 1 => .ok v.y
  | 2 => .ok v.z
  | _ => .error "component_index"

/-- Embeds the writing use of the non-const TVec3 operator[]. -/
def setComp (v : TVec3 α) (i : Nat) (a : α) : Except String (TVec3 α) :=
  match i with
  | 0 => .ok ⟨a, v.y, v.z⟩
  | 1 => .ok ⟨v.x, a, v.z⟩
  | 2 => .ok ⟨v.x, v.y, a⟩
  | _ => .error "component_index"

/-- Embeds the free function abs(const TVec3&) of vector.h. -/
def vabs [Lattice α] [AddGroup α] (v : TVec3 α) : TVec3 α := ⟨|v.x|, |v.y|, |v.z|⟩

end TVec3

/-- Embeds the alias Vec2 = FVec2 = TVec2 of float; float components are
idealised as reals. -/
abbrev Vec2 := TVec2 Real

/-- Embeds the alias Vec3 = FVec3 = TVec3 of float; float components are
idealised as reals. -/
abbrev Vec3 := TVec3 Real

/-- Embeds the three-way comparison a C++ defaulted operator<=> performs
on one member: less, greater, or equivalent. -/
def ltCompare {α : Type} [LinearOrder α] (a b : α) : Ordering :=
  if a < b then .lt else if b < a then .gt else .eq

/-- Embeds the defaulted operator<=> of Point: members x then y are
compared in declaration order, the first non-equivalent comparison
deciding the result. -/
def Point.cmp (a b : Point) : Ordering :=
  (ltCompare a.x b.x).then (ltCompare a.y b.y)

/-- Embeds the operator< synthesized from the defaulted operator<=> of
Point. -/
def Point.ltb (a b : Point) : Bool := decide (Point.cmp a b = .lt)

/-- Embeds the operator<= synthesized from the defaulted operator<=> of
Point. -/
def Point.leb (a b : Point) : Bool := decide (Point.cmp a b ≠ .gt)

/-- Embeds the operator> synthesized from the defaulted operator<=> of
Point. -/
def Point.gtb (a b : Point) : Bool := decide (Point.cmp a b = .gt)

/-- Embeds the operator>= synthesized from the defaulted operator<=> of
Point. -/
def Point.geb (a b : Point) : Bool := decide (Point.cmp a b ≠ .lt)

/-- Embeds the defaulted operator<=> of TVec2: members x then y compared
in declaration order. -/
def TVec2.cmp {α : Type} [LinearOrder α] (a b : TVec2 α) : Ordering :=
  (ltCompare a.x b.x).then (ltCompare a.y b.y)

/-- Embeds the operator< synthesized from the defaulted operator<=> of
TVec2. -/
def TVec2.ltb {α : Type} [LinearOrder α] (a b : TVec2 α) : Bool :=
  decide (TVec2.cmp a b = .lt)

/-- Embeds the operator<= synthesized from the defaulted operator<=> of
TVec2. -/
def TVec2.leb {α : Type} [LinearOrder α] (a b : TVec2 α) : Bool :=
  decide (TVec2.cmp a b ≠ .gt)

/-- Embeds the operator> synthesized from the defaulted operator<=> of
TVec2. -/
def TVec2.gtb {α : Type} [LinearOrder α] (a b : TVec2 α) : Bool :=
  decide (TVec2.cmp a b = .gt)

/-- Embeds the operator>= synthesized from the defaulted operator<=> of
TVec2. -/
def TVec2.geb {α : Type} [LinearOrder α] (a b : TVec2 α) : Bool :=
  decide (TVec2.cmp a b ≠ .lt)

/-- Embeds the defaulted operator<=> of TVec3: members x, y, z compared
in declaration order. -/
def TVec3.cmp {α : Type} [LinearOrder α] (a b : TVec3 α) : Ordering :=
  ((ltCompare a.x b.x).then (ltCompare a.y b.y)).then (ltCompare a.z b.z)

/-- Embeds the operator< synthesized from the defaulted operator<=> of
TVec3. -/
def TVec3.ltb {α : Type} [LinearOrder α] (a b : TVec3 α) : Bool :=
  decide (TVec3.cmp a b = .lt)

/-- Embeds the operator<= synthesized from the defaulted operator<=> of
TVec3. -/
def TVec3.leb {α : Type} [LinearOrder α] (a b : TVec3 α) : Bool :=
  decide (TVec3.cmp a b ≠ .gt)

/-- Embeds the operator> synthesized from the defaulted operator<=> of
TVec3. -/
def TVec3.gtb {α : Type} [LinearOrder α] (a b : TVec3 α) : Bool :=
  decide (TVec3.cmp a b = .gt)

/-- Embeds the operator>= synthesized from the defaulted operator<=> of
TVec3. -/
def TVec3.geb {α : Type} [LinearOrder α] (a b : TVec3 α) : Bool :=
  decide (TVec3.cmp a b ≠ .lt)

/-- Embeds struct GridRectPoints (grid.h): a rectangular region of grid
points anchored at a starting point, with column and row counts of type
size_t. -/
structure GridRectPoints where
  pbegin : Point
  xCount : Nat
  yCount : Nat
deriving DecidableEq, Repr

namespace GridRectPoints

/-- Embeds the GridRectPoints constructor: throws std::invalid_argument
when x_count or y_count is zero, otherwise stores the fields. -/
def mk' (b : Point) (xc yc : Nat) : Except String GridRectPoints :=
  if xc = 0 then .error "x_count must be larger than zero"
  else if yc = 0 then .error "y_count must be larger than zero"
  else .ok ⟨b, xc, yc⟩

/-- Embeds GridRectPoints::Iterator::operator++ for an iterator created by
begin(), whose start_x_ is the x of the region's starting point and whose
x_count_ is the region's x_count.  The source compares the int expression
current_.x - start_x_ + 1 against the size_t field x_count_, so the int
value is converted to size_t first; when the wrapped column offset has
reached x_count_ the iterator moves to the first column of the next row,
otherwise one column to the right. -/
def inc (startX : Int) (xCount : Nat) (p : Point) : Point :=
  if xCount ≤ cppToSizeT (p.x - startX + 1) then ⟨startX, p.y + 1⟩
  else ⟨p.x + 1, p.y⟩

/-- Applies inc n times to a point: the position of a begin() iterator
after n increments. -/
def iterN (startX : Int) (xCount : Nat) (p : Point) : Nat → Point
  | 0 => p
  | n + 1 => inc startX xCount (iterN startX xCount p n)

/-- Embeds the position held by the iterator that end() returns: one row
past the last row, at the starting column.  Equality of iterators compares
only this position. -/
def sentinel (r : GridRectPoints) : Point :=
  ⟨r.pbegin.x, r.pbegin.y + (r.yCount : Int)⟩

end GridRectPoints

/-- Describes the points of a width x height rectangle anchored at b in
row-major order: for each j below h (outer), for each i below w (inner),
the point (b.x + i, b.y + j). -/
def rectRowMajor (b : Point) (w h : Nat) : List Point :=
  (List.range h).flatMap fun j : Nat =>
    (List.range w).map fun i : Nat => ⟨b.x + (i : Int), b.y + (j : Int)⟩

/-- Embeds Grid::Rows (grid.h): a half-open range of row indices. -/
structure Rows where
  rbegin : Nat
  rend : Nat
deriving DecidableEq, Repr

namespace Rows

/-- Embeds the Rows constructor: throws std::out_of_range when the end
bound is not strictly larger than the begin bound. -/
def mk' (b e : Nat) : Except String Rows :=
  if e ≤ b then .error "Row `end` must be larger than `begin`"
  else .ok ⟨b, e⟩

/-- Describes the row indices a Rows value yields: its RowIterator starts
at the begin bound and increments by one until it equals the end bound,
visiting rbegin, rbegin + 1, ..., rend - 1. -/
def toList (r : Rows) : List Nat := List.range' r.rbegin (r.rend - r.rbegin)

end Rows

/-- Embeds template Grid (grid.h): x_count_ columns, y_count_ rows, and
the backing std::vector of cells in row-major order.  The length invariant
established by both constructors (x_count_ * y_count_ cells) is carried as
a field, since the vector's unchecked operator[] assumes it. -/
structure Grid (α : Type) where
  xc : Nat
  yc : Nat
  cells : List α
  hlen : cells.length = xc * yc

/-- Embeds the Grid constructor taking a default value: every one of the
x_count * y_count cells holds defaultValue. -/
def Grid.ofFill (α : Type) (xc yc : Nat) (v : α) : Grid α :=
  ⟨xc, yc, List.replicate (xc * yc) v, List.length_replicate (xc * yc) v⟩

/-- Embeds Grid::xy_index(int, int): the four bounds checks in source
order (x negative, y negative, x too large, y too large), each throwing
std::out_of_range with its own message, then the row-major offset
y * x_count_ + x as a size_t. -/
def Grid.xyIndex {α : Type} (g : Grid α) (x y : Int) : Except String Nat :=
  if x < 0 then .error "x must be a positive value"
  else if y < 0 then .error "y must be a positive value"
  else if (g.xc : Int) ≤ x then
    .error "x must be less than number of columns in grid"
  else if (g.yc : Int) ≤ y then
    .error "y must be less than number of rows in grid"
  else .ok (y.toNat * g.xc + x.toNat)

/-- Characterizes a successful xy_index: all four bounds checks pass and
the result is the row-major offset. -/
theorem Grid.xyIndex_ok_iff {α : Type} (g : Grid α) (x y : Int) (i : Nat) :
    g.xyIndex x y = .ok i ↔
      0 ≤ x ∧ 0 ≤ y ∧ x < (g.xc : Int) ∧ y < (g.yc : Int) ∧
        i = y.toNat * g.xc + x.toNat := by
  unfold Grid.xyIndex
  split_ifs with h1 h2 h3 h4
  · simp; omega
  · simp; omega
  · simp; omega
  · simp; omega
  · constructor
    · intro h
      have h5 : y.toNat * g.xc + x.toNat = i := by simpa using h
      exact ⟨by omega, by omega, by omega, by omega, h5.symm⟩
    · rintro ⟨-, -, -, -, rfl⟩
      rfl

/-- Bounds the offset a successful xy_index returns by the cell count. -/
theorem Grid.xyIndex_ok_lt {α : Type} {g : Grid α} {x y : Int} {i : Nat}
    (h : g.xyIndex x y = .ok i) : i < g.cells.length := by
  rcases (g.xyIndex_ok_iff x y i).mp h with ⟨hx0, hy0, hx1, hy1, rfl⟩
  rw [g.hlen]
  have hxlt : x.toNat < g.xc := by omega
  have hylt : y.toNat < g.yc := by omega
  calc y.toNat * g.xc + x.toNat < y.toNat * g.xc + g.xc := by omega
    _ = (y.toNat + 1) * g.xc := by ring
    _ ≤ g.yc * g.xc := Nat.mul_le_mul_right _ (by omega)
    _ = g.xc * g.yc := Nat.mul_comm _ _

/-- Embeds the reading use of Grid::operator[](Point): xy_index validates
the coordinates and the vector cell at the returned offset is read. -/
def Grid.get {α : Type} (g : Grid α) (p : Point) : Except String α :=
  match h : g.xyIndex p.x p.y with
  | .error e => .error e
  | .ok i => .ok (g.cells.get ⟨i, Grid.xyIndex_ok_lt h⟩)

/-- Describes the grid after the cell at backing-storage offset i has
been replaced by v: dimensions unchanged, one vector element rewritten. -/
def Grid.writeCell {α : Type} (g : Grid α) (i : Nat) (v : α) : Grid α :=
  ⟨g.xc, g.yc, g.cells.set i v, by rw [List.length_set]; exact g.hlen⟩

/-- Embeds the writing use of the non-const Grid::operator[](Point)
(assignment through the returned reference): xy_index validates the
coordinates and the vector cell at the returned offset is replaced. -/
def Grid.set {α : Type} (g : Grid α) (p : Point) (v : α) :
    Except String (Grid α) :=
  match g.xyIndex p.x p.y with
  | .error e => .error e
  | .ok i => .ok (g.writeCell i v)

/-- Computes a failing read from a failing coordinate check. -/
theorem Grid.get_eq_error {α : Type} {g : Grid α} {p : Point} {e : String}
    (h : g.xyIndex p.x p.y = .error e) : g.get p = .error e := by
  unfold Grid.get
  split
  · rename_i e2 heq
    rw [h] at heq
    cases heq
    rfl
  · rename_i i heq
    rw [h] at heq
    cases heq

/-- Computes a successful read from a successful coordinate check. -/
theorem Grid.get_eq_ok {α : Type} {g : Grid α} {p : Point} {i : Nat}
    (h : g.xyIndex p.x p.y = .ok i) (hlt : i < g.cells.length) :
    g.get p = .ok (g.cells.get ⟨i, hlt⟩) := by
  unfold Grid.get
  split
  · rename_i e2 heq
    rw [h] at heq
    cases heq
  · rename_i i2 heq
    rw [h] at heq
    cases heq
    rfl

/-- Computes a failing write from a failing coordinate check. -/
theorem Grid.set_eq_error {α : Type} {g : Grid α} {p : Point} {v : α}
    {e : String} (h : g.xyIndex p.x p.y = .error e) :
    g.set p v = .error e := by
  unfold Grid.set
  rw [h]

/-- Computes a successful write from a successful coordinate check. -/
theorem Grid.set_eq_ok {α : Type} {g : Grid α} {p : Point} {v : α} {i : Nat}
    (h : g.xyIndex p.x p.y = .ok i) : g.set p v = .ok (g.writeCell i v) := by
  unfold Grid.set
  rw [h]

/-- Recovers the two coordinates from equal row-major offsets: the
decomposition q * w + r with r < w is unique. -/
theorem rowMajor_offset_inj {w qx px qy py : Nat} (hqx : qx < w)
    (hpx : px < w) (h : qy * w + qx = py * w + px) : qy = py ∧ qx = px := by
  have hw : 0 < w := Nat.lt_of_le_of_lt (Nat.zero_le _) hqx
  have h2 : w * qy + qx = w * py + px := by
    rw [Nat.mul_comm w qy, Nat.mul_comm w py]
    exact h
  have hdiv : qy = py := by
    have h3 := congrArg (· / w) h2
    simpa [Nat.mul_add_div hw, Nat.div_eq_of_lt hqx, Nat.div_eq_of_lt hpx]
      using h3
  subst hdiv
  exact ⟨rfl, Nat.add_left_cancel h2⟩

/-- Models addition of two size_t values: the sum wraps modulo 2^64. -/
def sizeTAdd (a b : Nat) : Nat := (a + b) % 2 ^ 64

/-- Embeds Grid::rows(size_type, size_type): two bounds checks in source
order, then construction of the Rows value for the half-open range.  The
source computes row + count in size_t, so the sum wraps modulo 2^64 both
in the second bounds check and in the end bound handed to the Rows
constructor. -/
def Grid.rows {α : Type} (g : Grid α) (row count : Nat) :
    Except String Rows :=
  if g.yc ≤ row then .error "row index must be less than grid y_count_"
  else if g.yc < sizeTAdd row count then
    .error "row index + count must be less than grid y_count_"
  else Rows.mk' row (sizeTAdd row count)

/-- Embeds the nullary Grid::rows(): delegates to rows(0, y_count_). -/
def Grid.rowsAll {α : Type} (g : Grid α) : Except String Rows :=
  g.rows 0 g.yc

/-- Embeds Grid::contains_point. -/
def Grid.containsPoint {α : Type} (g : Grid α) (p : Point) : Bool :=
  0 ≤ p.x && 0 ≤ p.y && p.x < (g.xc : Int) && p.y < (g.yc : Int)

/-- Characterizes the less-than result of a single member comparison. -/
theorem ltCompare_eq_lt {α : Type} [LinearOrder α] {a b : α} :
    ltCompare a b = .lt ↔ a < b := by
  unfold ltCompare
  split_ifs with h1 h2
  · exact iff_of_true rfl h1
  · exact iff_of_false (by decide) h1
  · exact iff_of_false (by decide) h1

/-- Characterizes the greater-than result of a single member comparison. -/
theorem ltCompare_eq_gt {α : Type} [LinearOrder α] {a b : α} :
    ltCompare a b = .gt ↔ b < a := by
  unfold ltCompare
  split_ifs with h1 h2
  · exact iff_of_false (by decide) (lt_asymm h1)
  · exact iff_of_true rfl h2
  · exact iff_of_false (by decide) h2

/-- Characterizes the equivalent result of a single member comparison. -/
theorem ltCompare_eq_eq {α : Type} [LinearOrder α] {a b : α} :
    ltCompare a b = .eq ↔ a = b := by
  unfold ltCompare
  split_ifs with h1 h2
  · exact iff_of_false (by decide) (ne_of_lt h1)
  · exact iff_of_false (by decide) (ne_of_gt h2)
  · exact iff_of_true rfl (le_antisymm (not_lt.mp h2) (not_lt.mp h1))

/-- Swapping the arguments of a member comparison swaps its result. -/
theorem ltCompare_swap {α : Type} [LinearOrder α] (a b : α) :
    (ltCompare a b).swap = ltCompare b a := by
  rcases lt_trichotomy a b with h | h | h
  · simp [ltCompare, h, lt_asymm h, Ordering.swap]
  · subst h
    simp [ltCompare, lt_irrefl, Ordering.swap]
  · simp [ltCompare, h, lt_asymm h, Ordering.swap]

/-- Characterizes the less-than result of the Point comparison as strict
lexicographic order on (x, y). -/
theorem pointCmp_eq_lt {a b : Point} :
    Point.cmp a b = .lt ↔ a.x < b.x ∨ (a.x = b.x ∧ a.y < b.y) := by
  rw [Point.cmp, Ordering.then_eq_lt, ltCompare_eq_lt, ltCompare_eq_lt,
    ltCompare_eq_eq]

/-- Characterizes the equivalent result of the Point comparison as
componentwise equality. -/
theorem pointCmp_eq_eq {a b : Point} : Point.cmp a b = .eq ↔ a = b := by
  rw [Point.cmp, Ordering.then_eq_eq, ltCompare_eq_eq, ltCompare_eq_eq]
  cases a
  cases b
  simp [Point.mk.injEq]

/-- Swapping the arguments of the Point comparison swaps its result. -/
theorem pointCmp_swap (a b : Point) :
    (Point.cmp a b).swap = Point.cmp b a := by
  rw [Point.cmp, Point.cmp, Ordering.swap_then, ltCompare_swap,
    ltCompare_swap]

/-- Characterizes the less-than result of the TVec2 comparison as strict
lexicographic order on (x, y). -/
theorem vec2Cmp_eq_lt {α : Type} [LinearOrder α] {a b : TVec2 α} :
    TVec2.cmp a b = .lt ↔ a.x < b.x ∨ (a.x = b.x ∧ a.y < b.y) := by
  rw [TVec2.cmp, Ordering.then_eq_lt, ltCompare_eq_lt, ltCompare_eq_lt,
    ltCompare_eq_eq]

/-- Characterizes the equivalent result of the TVec2 comparison as
componentwise equality. -/
theorem vec2Cmp_eq_eq {α : Type} [LinearOrder α] {a b : TVec2 α} :
    TVec2.cmp a b = .eq ↔ a = b := by
  rw [TVec2.cmp, Ordering.then_eq_eq, ltCompare_eq_eq, ltCompare_eq_eq]
  cases a
  cases b
  simp [TVec2.mk.injEq]

/-- Swapping the arguments of the TVec2 comparison swaps its result. -/
theorem vec2Cmp_swap {α : Type} [LinearOrder α] (a b : TVec2 α) :
    (TVec2.cmp a b).swap = TVec2.cmp b a := by
  rw [TVec2.cmp, TVec2.cmp, Ordering.swap_then, ltCompare_swap,
    ltCompare_swap]

/-- Characterizes the less-than result of the TVec3 comparison as strict
lexicographic order on (x, y, z). -/
theorem vec3Cmp_eq_lt {α : Type} [LinearOrder α] {a b : TVec3 α} :
    TVec3.cmp a b = .lt ↔
      a.x < b.x ∨ (a.x = b.x ∧ (a.y < b.y ∨ (a.y = b.y ∧ a.z < b.z))) := by
  rw [TVec3.cmp, Ordering.then_eq_lt, Ordering.then_eq_lt,
    Ordering.then_eq_eq, ltCompare_eq_lt, ltCompare_eq_lt, ltCompare_eq_lt,
    ltCompare_eq_eq, ltCompare_eq_eq]
  tauto

/-- Characterizes the equivalent result of the TVec3 comparison as
componentwise equality. -/
theorem vec3Cmp_eq_eq {α : Type} [LinearOrder α] {a b : TVec3 α} :
    TVec3.cmp a b = .eq ↔ a = b := by
  rw [TVec3.cmp, Ordering.then_eq_eq, Ordering.then_eq_eq, ltCompare_eq_eq,
    ltCompare_eq_eq, ltCompare_eq_eq]
  cases a
  cases b
  simp [TVec3.mk.injEq]
  tauto

/-- Swapping the arguments of the TVec3 comparison swaps its result. -/
theorem vec3Cmp_swap {α : Type} [LinearOrder α] (a b : TVec3 α) :
    (TVec3.cmp a b).swap = TVec3.cmp b a := by
  rw [TVec3.cmp, TVec3.cmp, Ordering.swap_then, Ordering.swap_then,
    ltCompare_swap, ltCompare_swap, ltCompare_swap]

/-- Relates a comparison result not being greater to it being less or
equivalent. -/
theorem Ordering.neq_gt_total {o : Ordering} :
    o ≠ .gt ↔ o = .lt ∨ o = .eq := by
  cases o <;> simp

/-- Packages the consequences of a comparison that swaps with its
arguments: greater one way is less the other way, and at least one
direction is not greater. -/
theorem cmp_swap_ops {β : Type} (c : β → β → Ordering)
    (hswap : ∀ x y, (c x y).swap = c y x) (a b : β) :
    (c a b = .gt ↔ c b a = .lt) ∧
    (c a b = .lt ↔ c b a = .gt) ∧
    (c a b ≠ .gt ∨ c b a ≠ .gt) := by
  have h1 : ∀ x y : β, c x y = .gt → c y x = .lt := by
    intro x y h
    rw [← hswap x y, h]
    rfl
  have h2 : ∀ x y : β, c x y = .lt → c y x = .gt := by
    intro x y h
    rw [← hswap x y, h]
    rfl
  refine ⟨⟨h1 a b, fun h => h2 b a h⟩, ⟨h2 a b, fun h => h1 b a h⟩, ?_⟩
  by_cases h : c a b = .gt
  · right
    intro h3
    rw [← hswap a b, h] at h3
    exact absurd h3 (by decide)
  · left
    exact h

/-- C10: Point, TVec2 and TVec3 provide the comparison operators <, <=, >
and >= synthesized from their defaulted operator<=>; the order is
lexicographic in component declaration order (x, then y, then z for
3-component vectors), the induced equivalence holds exactly when all
components are equal, and the order is total. -/
theorem comparison_is_lexicographic_total_order :
    (∀ a b : Point,
      (Point.ltb a b = true ↔ a.x < b.x ∨ (a.x = b.x ∧ a.y < b.y)) ∧
      (Point.cmp a b = .eq ↔ a = b) ∧
      (Point.leb a b = true ↔ Point.ltb a b = true ∨ a = b) ∧
      (Point.gtb a b = true ↔ Point.ltb b a = true) ∧
      (Point.geb a b = true ↔ Point.leb b a = true) ∧
      (Point.leb a b = true ∨ Point.leb b a = true)) ∧
    (∀ (α : Type) [LinearOrder α], ∀ a b : TVec2 α,
      (TVec2.ltb a b = true ↔ a.x < b.x ∨ (a.x = b.x ∧ a.y < b.y)) ∧
      (TVec2.cmp a b = .eq ↔ a = b) ∧
      (TVec2.leb a b = true ↔ TVec2.ltb a b = true ∨ a = b) ∧
      (TVec2.gtb a b = true ↔ TVec2.ltb b a = true) ∧
      (TVec2.geb a b = true ↔ TVec2.leb b a = true) ∧
      (TVec2.leb a b = true ∨ TVec2.leb b a = true)) ∧
    (∀ (α : Type) [LinearOrder α], ∀ a b : TVec3 α,
      (TVec3.ltb a b = true ↔
        a.x < b.x ∨ (a.x = b.x ∧ (a.y < b.y ∨ (a.y = b.y ∧ a.z < b.z)))) ∧
      (TVec3.cmp a b = .eq ↔ a = b) ∧
      (TVec3.leb a b = true ↔ TVec3.ltb a b = true ∨ a = b) ∧
      (TVec3.gtb a b = true ↔ TVec3.ltb b a = true) ∧
      (TVec3.geb a b = true ↔ TVec3.leb b a = true) ∧
      (TVec3.leb a b = true ∨ TVec3.leb b a = true)) := by
  refine ⟨fun a b => ?_, fun α inst a b => ?_, fun α inst a b => ?_⟩
  · have hops := cmp_swap_ops Point.cmp pointCmp_swap a b
    simp only [Point.ltb, Point.leb, Point.gtb, Point.geb,
      decide_eq_true_eq]
    refine ⟨pointCmp_eq_lt, pointCmp_eq_eq, ?_, hops.1,
      not_congr hops.2.1, hops.2.2⟩
    rw [Ordering.neq_gt_total, pointCmp_eq_lt, pointCmp_eq_eq,
      ← pointCmp_eq_lt]
  · have hops := cmp_swap_ops TVec2.cmp vec2Cmp_swap a b
    simp only [TVec2.ltb, TVec2.leb, TVec2.gtb, TVec2.geb,
      decide_eq_true_eq]
    refine ⟨vec2Cmp_eq_lt, vec2Cmp_eq_eq, ?_, hops.1,
      not_congr hops.2.1, hops.2.2⟩
    rw [Ordering.neq_gt_total, vec2Cmp_eq_lt, vec2Cmp_eq_eq,
      ← vec2Cmp_eq_lt]
  · have hops := cmp_swap_ops TVec3.cmp vec3Cmp_swap a b
    simp only [TVec3.ltb, TVec3.leb, TVec3.gtb, TVec3.geb,
      decide_eq_true_eq]
    refine ⟨vec3Cmp_eq_lt, vec3Cmp_eq_eq, ?_, hops.1,
      not_congr hops.2.1, hops.2.2⟩
    rw [Ordering.neq_gt_total, vec3Cmp_eq_lt, vec3Cmp_eq_eq,
      ← vec3Cmp_eq_lt]

/-- C4: indexed component access returns x for index 0 and y for index 1
on Point and TVec2, additionally z for index 2 on TVec3; any other index
yields an out-of-range error, for read as well as write access, never a
silent out-of-bounds read or write. -/
theorem component_index_access_is_bounds_checked :
    (∀ p : Point, p.getComp 0 = .ok p.x ∧ p.getComp 1 = .ok p.y) ∧
    (∀ (p : Point) (v : Int),
      p.setComp 0 v = .ok ⟨v, p.y⟩ ∧ p.setComp 1 v = .ok ⟨p.x, v⟩) ∧
    (∀ (p : Point) (i : Nat), 2 ≤ i →
      p.getComp i = .error "component_index" ∧
      ∀ v, p.setComp i v = .error "component_index") ∧
    (∀ (α : Type) (v : TVec2 α),
      v.getComp 0 = .ok v.x ∧ v.getComp 1 = .ok v.y) ∧
    (∀ (α : Type) (v : TVec2 α) (a : α),
      v.setComp 0 a = .ok ⟨a, v.y⟩ ∧ v.setComp 1 a = .ok ⟨v.x, a⟩) ∧
    (∀ (α : Type) (v : TVec2 α) (i : Nat), 2 ≤ i →
      v.getComp i = .error "component_index" ∧
      ∀ a, v.setComp i a = .error "component_index") ∧
    (∀ (α : Type) (v : TVec3 α),
      v.getComp 0 = .ok v.x ∧ v.getComp 1 = .ok v.y ∧
        v.getComp 2 = .ok v.z) ∧
    (∀ (α : Type) (v : TVec3 α) (a : α),
      v.setComp 0 a = .ok ⟨a, v.y, v.z⟩ ∧ v.setComp 1 a = .ok ⟨v.x, a, v.z⟩ ∧
        v.setComp 2 a = .ok ⟨v.x, v.y, a⟩) ∧
    (∀ (α : Type) (v : TVec3 α) (i : Nat), 3 ≤ i →
      v.getComp i = .error "component_index" ∧
      ∀ a, v.setComp i a = .error "component_index") := by
  refine ⟨fun p => ⟨rfl, rfl⟩, fun p v => ⟨rfl, rfl⟩, ?_,
    fun α v => ⟨rfl, rfl⟩, fun α v a => ⟨rfl, rfl⟩, ?_,
    fun α v => ⟨rfl, rfl, rfl⟩, fun α v a => ⟨rfl, rfl, rfl⟩, ?_⟩
  · intro p i hi
    obtain ⟨m, rfl⟩ : ∃ m, i = m + 2 := ⟨i - 2, by omega⟩
    exact ⟨rfl, fun v => rfl⟩
  · intro α v i hi
    obtain ⟨m, rfl⟩ : ∃ m, i = m + 2 := ⟨i - 2, by omega⟩
    exact ⟨rfl, fun a => rfl⟩
  · intro α v i hi
    obtain ⟨m, rfl⟩ : ∃ m, i = m + 3 := ⟨i - 3, by omega⟩
    exact ⟨rfl, fun a => rfl⟩

/-- Witness for C4: concrete out-of-range accesses fail with the
out-of-range error. -/
theorem component_index_access_is_bounds_checked_witness :
    (2 ≤ 2 ∧ Point.getComp ⟨3, 4⟩ 2 = .error "component_index" ∧
      Point.setComp ⟨3, 4⟩ 2 9 = .error "component_index") ∧
    (2 ≤ 5 ∧ TVec2.getComp (⟨3, 4⟩ : TVec2 Int) 5 =
      .error "component_index") ∧
    (3 ≤ 3 ∧ TVec3.getComp (⟨1, 2, 3⟩ : TVec3 Int) 3 =
      .error "component_index") := by
  have h := component_index_access_is_bounds_checked
  refine ⟨⟨by decide, ?_, ?_⟩, ⟨by decide, ?_⟩, ⟨by decide, ?_⟩⟩
  · exact (h.2.2.1 ⟨3, 4⟩ 2 (by decide)).1
  · exact (h.2.2.1 ⟨3, 4⟩ 2 (by decide)).2 9
  · exact (h.2.2.2.2.2.1 Int ⟨3, 4⟩ 5 (by decide)).1
  · exact (h.2.2.2.2.2.2.2.2 Int ⟨1, 2, 3⟩ 3 (by decide)).1

/-- C6: constructing a Rows range whose end bound does not strictly exceed
its begin bound fails with an error rather than yielding an empty range,
and constructing a GridRectPoints region with zero width or zero height
fails at construction. -/
theorem empty_ranges_and_zero_area_regions_are_rejected :
    (∀ b e : Nat, e ≤ b →
      Rows.mk' b e = .error "Row `end` must be larger than `begin`") ∧
    (∀ (p : Point) (xc yc : Nat), xc = 0 ∨ yc = 0 →
      ∃ msg, GridRectPoints.mk' p xc yc = .error msg) := by
  constructor
  · intro b e h
    unfold Rows.mk'
    rw [if_pos h]
  · intro p xc yc h
    by_cases hx : xc = 0
    · exact ⟨"x_count must be larger than zero", by
        unfold GridRectPoints.mk'
        rw [if_pos hx]⟩
    · rcases h with h | h
      · exact absurd h hx
      · exact ⟨"y_count must be larger than zero", by
          unfold GridRectPoints.mk'
          rw [if_neg hx, if_pos h]⟩

/-- C8: for all Point, Vec2 and Vec3 values a and b, a + b - b equals a,
-(-a) equals a, and a * 2 / 2 equals a (scalar division by the non-zero
scalar 2 is exact on these component types). -/
theorem arithmetic_cancellation_identities :
    (∀ a b : Point,
      (a.add b).sub b = a ∧ a.neg.neg = a ∧ (a.smul 2).sdiv 2 = a) ∧
    (∀ a b : Vec2,
      (a.add b).sub b = a ∧ a.neg.neg = a ∧ (a.smul 2).sdiv 2 = a) ∧
    (∀ a b : Vec3,
      (a.add b).sub b = a ∧ a.neg.neg = a ∧ (a.smul 2).sdiv 2 = a) := by
  refine ⟨fun a b => ⟨?_, ?_, ?_⟩, fun a b => ⟨?_, ?_, ?_⟩,
    fun a b => ⟨?_, ?_, ?_⟩⟩
  · cases a
    cases b
    simp [Point.add, Point.sub]
  · cases a
    simp [Point.neg]
  · cases a
    simp [Point.smul, Point.sdiv,
      Int.mul_tdiv_cancel _ (by decide : (2 : Int) ≠ 0)]
  · cases a
    cases b
    simp [TVec2.add, TVec2.sub]
  · cases a
    simp [TVec2.neg]
  · cases a
    simp [TVec2.smul, TVec2.sdiv,
      mul_div_cancel_right₀ _ (by norm_num : (2 : Real) ≠ 0)]
  · cases a
    cases b
    simp [TVec3.add, TVec3.sub]
  · cases a
    simp [TVec3.neg]
  · cases a
    simp [TVec3.smul, TVec3.sdiv,
      mul_div_cancel_right₀ _ (by norm_num : (2 : Real) ≠ 0)]

/-- C9: componentwise absolute value has all components non-negative and
is invariant under negating its argument, for Point and for 2- and
3-component vectors over any linearly ordered additive group of
components. -/
theorem abs_componentwise_nonneg_and_even :
    (∀ p : Point,
      0 ≤ (pointAbs p).x ∧ 0 ≤ (pointAbs p).y ∧
        pointAbs p.neg = pointAbs p) ∧
    (∀ (α : Type) [LinearOrderedAddCommGroup α], ∀ v : TVec2 α,
      0 ≤ (TVec2.vabs v).x ∧ 0 ≤ (TVec2.vabs v).y ∧
        TVec2.vabs v.neg = TVec2.vabs v) ∧
    (∀ (α : Type) [LinearOrderedAddCommGroup α], ∀ v : TVec3 α,
      0 ≤ (TVec3.vabs v).x ∧ 0 ≤ (TVec3.vabs v).y ∧
        0 ≤ (TVec3.vabs v).z ∧ TVec3.vabs v.neg = TVec3.vabs v) := by
  refine ⟨fun p => ⟨abs_nonneg _, abs_nonneg _, ?_⟩,
    fun α inst v => ⟨abs_nonneg _, abs_nonneg _, ?_⟩,
    fun α inst v => ⟨abs_nonneg _, abs_nonneg _, abs_nonneg _, ?_⟩⟩
  · cases p
    simp [pointAbs, Point.neg, abs_neg]
  · cases v
    simp [TVec2.vabs, TVec2.neg, abs_neg]
  · cases v
    simp [TVec3.vabs, TVec3.neg, abs_neg]

/-- Witness for C6: Rows(5, 5) and Rows(5, 4) fail, and zero-width and
zero-height rectangular regions fail at construction. -/
theorem empty_ranges_and_zero_area_regions_are_rejected_witness :
    ((5 : Nat) ≤ 5 ∧
      Rows.mk' 5 5 = .error "Row `end` must be larger than `begin`") ∧
    ((4 : Nat) ≤ 5 ∧
      Rows.mk' 5 4 = .error "Row `end` must be larger than `begin`") ∧
    (∃ msg, GridRectPoints.mk' ⟨4, 7⟩ 0 3 = .error msg) ∧
    (∃ msg, GridRectPoints.mk' ⟨4, 7⟩ 2 0 = .error msg) := by
  have h := empty_ranges_and_zero_area_regions_are_rejected
  exact ⟨⟨by decide, h.1 5 5 (by decide)⟩, ⟨by decide, h.1 5 4 (by decide)⟩,
    h.2 ⟨4, 7⟩ 0 3 (Or.inl rfl), h.2 ⟨4, 7⟩ 2 0 (Or.inr rfl)⟩

/-- C2: writing a value through an in-bounds coordinate and reading it
back returns the written value, and every other cell (in bounds or not)
reads exactly as it did before the write. -/
theorem grid_write_then_read_with_frame {α : Type} (g : Grid α) (p : Point)
    (v : α) (hx0 : 0 ≤ p.x) (hx1 : p.x < (g.xc : Int))
    (hy0 : 0 ≤ p.y) (hy1 : p.y < (g.yc : Int)) :
    ∃ g2 : Grid α, g.set p v = .ok g2 ∧ g2.get p = .ok v ∧
      ∀ q : Point, q ≠ p → g2.get q = g.get q := by
  have hidx : g.xyIndex p.x p.y = .ok (p.y.toNat * g.xc + p.x.toNat) :=
    (g.xyIndex_ok_iff _ _ _).mpr ⟨hx0, hy0, hx1, hy1, rfl⟩
  refine ⟨g.writeCell (p.y.toNat * g.xc + p.x.toNat) v,
    Grid.set_eq_ok hidx, ?_, ?_⟩
  · have hidx2 : (g.writeCell (p.y.toNat * g.xc + p.x.toNat) v).xyIndex
        p.x p.y = .ok (p.y.toNat * g.xc + p.x.toNat) := hidx
    have hlt2 := Grid.xyIndex_ok_lt hidx2
    rw [Grid.get_eq_ok hidx2 hlt2]
    exact congrArg Except.ok
      (by rw [List.get_eq_getElem]; exact List.getElem_set_self _)
  · intro q hq
    rcases hrq : g.xyIndex q.x q.y with e | j
    · have hrq2 : (g.writeCell (p.y.toNat * g.xc + p.x.toNat) v).xyIndex
          q.x q.y = .error e := hrq
      rw [Grid.get_eq_error hrq2, Grid.get_eq_error hrq]
    · have hj := Grid.xyIndex_ok_lt hrq
      have hrq2 : (g.writeCell (p.y.toNat * g.xc + p.x.toNat) v).xyIndex
          q.x q.y = .ok j := hrq
      have hj2 := Grid.xyIndex_ok_lt hrq2
      rw [Grid.get_eq_ok hrq2 hj2, Grid.get_eq_ok hrq hj]
      rcases (g.xyIndex_ok_iff q.x q.y j).mp hrq with
        ⟨hqx0, hqy0, hqx1, hqy1, rfl⟩
      have hne : p.y.toNat * g.xc + p.x.toNat ≠
          q.y.toNat * g.xc + q.x.toNat := by
        intro heq
        rcases rowMajor_offset_inj (show p.x.toNat < g.xc by omega)
          (show q.x.toNat < g.xc by omega) heq with ⟨hyy, hxx⟩
        apply hq
        have hxeq : q.x = p.x := by omega
        have hyeq : q.y = p.y := by omega
        cases q
        cases p
        simp_all
      exact congrArg Except.ok
        (by rw [List.get_eq_getElem, List.get_eq_getElem]
            exact List.getElem_set_ne hne _)

/-- Witness for C2: the 3 x 2 grid filled with 22; after writing 7 at
(0, 0), reading (0, 0) gives 7 and every other cell reads as before. -/
theorem grid_write_then_read_with_frame_witness :
    (0 : Int) ≤ 0 ∧ (0 : Int) < ((Grid.ofFill Int 3 2 22).xc : Int) ∧
    (0 : Int) < ((Grid.ofFill Int 3 2 22).yc : Int) ∧
    (∃ g2 : Grid Int, (Grid.ofFill Int 3 2 22).set ⟨0, 0⟩ 7 = .ok g2 ∧
      g2.get ⟨0, 0⟩ = .ok 7 ∧
      ∀ q : Point, q ≠ ⟨0, 0⟩ →
        g2.get q = (Grid.ofFill Int 3 2 22).get q) :=
  ⟨by decide, by decide, by decide,
    grid_write_then_read_with_frame (Grid.ofFill Int 3 2 22) ⟨0, 0⟩ 7
      (by decide) (by decide) (by decide) (by decide)⟩

/-- C3 (amended): the out-of-range error returned by grid access
identifies an axis following the source's check order (x negative, then y
negative, then x too large, then y too large); whenever exactly one axis
is out of range the error identifies that axis, an in-bounds access
returns the stored cell, and every x-axis message is distinct from every
y-axis message.  When both axes are out of range a single message is
produced according to that same precedence. -/
theorem grid_access_error_identifies_axis {α : Type} (g : Grid α)
    (p : Point) :
    (p.x < 0 → g.get p = .error "x must be a positive value") ∧
    (0 ≤ p.x → p.y < 0 → g.get p = .error "y must be a positive value") ∧
    (0 ≤ p.x → 0 ≤ p.y → (g.xc : Int) ≤ p.x →
      g.get p = .error "x must be less than number of columns in grid") ∧
    (0 ≤ p.x → 0 ≤ p.y → p.x < (g.xc : Int) → (g.yc : Int) ≤ p.y →
      g.get p = .error "y must be less than number of rows in grid") ∧
    (0 ≤ p.x → 0 ≤ p.y → p.x < (g.xc : Int) → p.y < (g.yc : Int) →
      ∃ c, g.get p = .ok c ∧
        g.cells[p.y.toNat * g.xc + p.x.toNat]? = some c) ∧
    ("x must be a positive value" ≠ "y must be a positive value" ∧
      "x must be a positive value" ≠
        "y must be less than number of rows in grid" ∧
      "x must be less than number of columns in grid" ≠
        "y must be a positive value" ∧
      "x must be less than number of columns in grid" ≠
        "y must be less than number of rows in grid") := by
  refine ⟨?_, ?_, ?_, ?_, ?_, by decide, by decide, by decide, by decide⟩
  · intro h
    apply Grid.get_eq_error
    unfold Grid.xyIndex
    rw [if_pos h]
  · intro hx hy
    apply Grid.get_eq_error
    unfold Grid.xyIndex
    rw [if_neg (not_lt.mpr hx), if_pos hy]
  · intro hx hy hxc
    apply Grid.get_eq_error
    unfold Grid.xyIndex
    rw [if_neg (not_lt.mpr hx), if_neg (not_lt.mpr hy), if_pos hxc]
  · intro hx hy hxc hyc
    apply Grid.get_eq_error
    unfold Grid.xyIndex
    rw [if_neg (not_lt.mpr hx), if_neg (not_lt.mpr hy),
      if_neg (not_le.mpr hxc), if_pos hyc]
  · intro hx hy hxc hyc
    have hidx : g.xyIndex p.x p.y = .ok (p.y.toNat * g.xc + p.x.toNat) :=
      (g.xyIndex_ok_iff _ _ _).mpr ⟨hx, hy, hxc, hyc, rfl⟩
    have hlt := Grid.xyIndex_ok_lt hidx
    exact ⟨g.cells.get ⟨_, hlt⟩, Grid.get_eq_ok hidx hlt,
      by rw [List.getElem?_eq_getElem hlt, List.get_eq_getElem]⟩

/-- Witness for C3 (amended): on the 3 x 2 grid, x = -1 reports the
negative-x message, y = 5 with in-range x reports the y-too-large
message, and the in-bounds point (1, 1) reads a stored cell. -/
theorem grid_access_error_identifies_axis_witness :
    ((-1 : Int) < 0 ∧ (Grid.ofFill Int 3 2 22).get ⟨-1, 0⟩ =
      .error "x must be a positive value") ∧
    ((Grid.ofFill Int 3 2 22).get ⟨0, 5⟩ =
      .error "y must be less than number of rows in grid") ∧
    (∃ c, (Grid.ofFill Int 3 2 22).get ⟨1, 1⟩ = .ok c ∧
      (Grid.ofFill Int 3 2 22).cells[(1 : Int).toNat *
        (Grid.ofFill Int 3 2 22).xc + (1 : Int).toNat]? = some c) := by
  have h1 := grid_access_error_identifies_axis (Grid.ofFill Int 3 2 22)
    ⟨-1, 0⟩
  have h2 := grid_access_error_identifies_axis (Grid.ofFill Int 3 2 22)
    ⟨0, 5⟩
  have h3 := grid_access_error_identifies_axis (Grid.ofFill Int 3 2 22)
    ⟨1, 1⟩
  exact ⟨⟨by decide, h1.1 (by decide)⟩,
    h2.2.2.2.1 (by decide) (by decide) (by decide) (by decide),
    h3.2.2.2.2.1 (by decide) (by decide) (by decide) (by decide)⟩

/-- Counterexample for C3 as stated: at the point (2, -1) on a 2 x 2
grid the x coordinate is out of range (2 is not below x_count = 2), yet
the access fails with the message identifying the y axis, which differs
from both x-axis messages. -/
theorem grid_access_x_violation_reports_y_axis :
    ((Grid.ofFill Int 2 2 0).xc : Int) ≤ 2 ∧
    (Grid.ofFill Int 2 2 0).get ⟨2, -1⟩ =
      .error "y must be a positive value" ∧
    "y must be a positive value" ≠ "x must be a positive value" ∧
    "y must be a positive value" ≠
      "x must be less than number of columns in grid" := by
  refine ⟨by decide, ?_, by decide, by decide⟩
  exact Grid.get_eq_error rfl

/-- C5 (amended): for a requested row count of at least one whose sum
with the start row does not wrap around the size_t range,
rows(start, count) fails with the row-index error when start is not below
y_count, fails with the row-count error when start + count exceeds
y_count, and otherwise yields the row indices start, ..., start+count-1;
rows() yields 0, ..., y_count-1 whenever the grid has at least one row
(y_count being a size_t value).  (With count = 0 the Rows constructor
rejects the empty range, see the counterexample; when start + count
wraps modulo 2^64 the bounds checks see the wrapped sum.) -/
theorem grid_rows_range_and_bounds {α : Type} (g : Grid α)
    (start count : Nat) (hc : 1 ≤ count)
    (hsum : start + count < 2 ^ 64) :
    (g.yc ≤ start →
      g.rows start count =
        .error "row index must be less than grid y_count_") ∧
    (start < g.yc → g.yc < start + count →
      g.rows start count =
        .error "row index + count must be less than grid y_count_") ∧
    (start < g.yc → start + count ≤ g.yc →
      ∃ r : Rows, g.rows start count = .ok r ∧
        r.toList = List.range' start count) ∧
    (1 ≤ g.yc → g.yc < 2 ^ 64 →
      ∃ r : Rows, g.rowsAll = .ok r ∧ r.toList = List.range' 0 g.yc) := by
  have hs : sizeTAdd start count = start + count := Nat.mod_eq_of_lt hsum
  refine ⟨?_, ?_, ?_, ?_⟩
  · intro h
    unfold Grid.rows
    rw [if_pos h]
  · intro h1 h2
    unfold Grid.rows
    rw [hs, if_neg (not_le.mpr h1), if_pos h2]
  · intro h1 h2
    refine ⟨⟨start, start + count⟩, ?_, ?_⟩
    · unfold Grid.rows Rows.mk'
      rw [hs, if_neg (not_le.mpr h1), if_neg (not_lt.mpr h2),
        if_neg (by omega : ¬start + count ≤ start)]
    · unfold Rows.toList
      rw [Nat.add_sub_cancel_left]
  · intro h hyc64
    have hs0 : sizeTAdd 0 g.yc = g.yc := by
      unfold sizeTAdd
      rw [Nat.zero_add]
      exact Nat.mod_eq_of_lt hyc64
    refine ⟨⟨0, g.yc⟩, ?_, ?_⟩
    · unfold Grid.rowsAll Grid.rows Rows.mk'
      rw [hs0, if_neg (by omega : ¬g.yc ≤ 0),
        if_neg (lt_irrefl g.yc), if_neg (by omega : ¬g.yc ≤ 0)]
    · unfold Rows.toList
      rw [Nat.sub_zero]

/-- Witness for C5 (amended): rows(3, 4) on a grid with 7 rows yields the
row indices 3, 4, 5, 6. -/
theorem grid_rows_range_and_bounds_witness :
    (1 : Nat) ≤ 4 ∧ (3 + 4 : Nat) < 2 ^ 64 ∧
    3 < (Grid.ofFill Int 3 7 0).yc ∧
    3 + 4 ≤ (Grid.ofFill Int 3 7 0).yc ∧
    (∃ r : Rows, (Grid.ofFill Int 3 7 0).rows 3 4 = .ok r ∧
      r.toList = List.range' 3 4) :=
  ⟨by decide, by norm_num, by decide, by decide,
    (grid_rows_range_and_bounds (Grid.ofFill Int 3 7 0) 3 4
      (by decide) (by norm_num)).2.2.1 (by decide) (by decide)⟩

/-- Counterexample for C5 as stated: on a grid with 5 rows, rows(1, 0)
satisfies neither of the claim's failure conditions (1 is below 5 and
1 + 0 does not exceed 5), yet it fails: the Rows constructor rejects the
empty range instead of producing the empty sequence of row indices. -/
theorem grid_rows_zero_count_fails :
    ¬((Grid.ofFill Int 3 5 0).yc ≤ 1) ∧
    ¬((Grid.ofFill Int 3 5 0).yc < 1 + 0) ∧
    (Grid.ofFill Int 3 5 0).rows 1 0 =
      .error "Row `end` must be larger than `begin`" :=
  ⟨by decide, by decide, rfl⟩

/-- Evaluates the int-to-size_t conversion on a small natural number: no
wraparound happens below 2^64. -/
theorem cppToSizeT_natCast (k : Nat) (hk : k < 2 ^ 64) :
    cppToSizeT (k : Int) = k := by
  unfold cppToSizeT
  rw [Int.emod_eq_of_lt (by positivity) (by exact_mod_cast hk)]
  exact Int.toNat_natCast k

/-- Steps the division and remainder by w across a successor when the
remainder has reached its maximum: the remainder wraps to zero and the
quotient grows by one. -/
theorem succ_divmod_wrap {n w : Nat} (hw : 0 < w) (h : n % w = w - 1) :
    (n + 1) % w = 0 ∧ (n + 1) / w = n / w + 1 := by
  by_cases hw1 : w = 1
  · subst hw1
    simp [Nat.mod_one, Nat.div_one]
  · have hmod : (n + 1) % w = 0 := by
      rw [Nat.add_mod, h, Nat.mod_eq_of_lt (by omega : 1 < w),
        (by omega : w - 1 + 1 = w), Nat.mod_self]
    refine ⟨hmod, ?_⟩
    rw [Nat.succ_div, if_pos (Nat.dvd_of_mod_eq_zero hmod)]

/-- Steps the division and remainder by w across a successor when the
remainder has room left: the remainder grows by one and the quotient is
unchanged. -/
theorem succ_divmod_step {n w : Nat} (h : n % w + 1 < w) :
    (n + 1) % w = n % w + 1 ∧ (n + 1) / w = n / w := by
  have hw1lt : 1 < w := lt_of_le_of_lt (Nat.le_add_left 1 (n % w)) h
  have hmod : (n + 1) % w = n % w + 1 := by
    rw [Nat.add_mod, Nat.mod_eq_of_lt hw1lt, Nat.mod_eq_of_lt h]
  refine ⟨hmod, ?_⟩
  rw [Nat.succ_div, if_neg, Nat.add_zero]
  intro hd
  obtain ⟨k, hk⟩ := hd
  rw [hk, Nat.mul_mod_right] at hmod
  exact Nat.succ_ne_zero _ hmod.symm

/-- Gives the position of the begin() iterator of a GridRectPoints after
n increments in closed form: n mod x_count columns to the right of the
starting column, n div x_count rows below the starting row.  Requires a
positive column count (the constructor guarantees it) within the size_t
range. -/
theorem GridRectPoints.iterN_from_begin (x0 y0 : Int) (w : Nat)
    (hw : 0 < w) (hw64 : w < 2 ^ 64) (n : Nat) :
    GridRectPoints.iterN x0 w ⟨x0, y0⟩ n =
      ⟨x0 + ((n % w : Nat) : Int), y0 + ((n / w : Nat) : Int)⟩ := by
  induction n with
  | zero =>
    simp [GridRectPoints.iterN]
  | succ n ih =>
    rw [GridRectPoints.iterN, ih]
    unfold GridRectPoints.inc
    dsimp only
    rw [(by push_cast; ring :
      x0 + ((n % w : Nat) : Int) - x0 + 1 = ((n % w + 1 : Nat) : Int))]
    have hle : n % w + 1 ≤ w := Nat.succ_le_of_lt (Nat.mod_lt n hw)
    rw [cppToSizeT_natCast (n % w + 1) (lt_of_le_of_lt hle hw64)]
    by_cases hcase : w ≤ n % w + 1
    · rw [if_pos hcase]
      have heq : n % w + 1 = w := le_antisymm hle hcase
      have hmod : n % w = w - 1 := by
        have h1 : n % w = n % w + 1 - 1 := (Nat.succ_sub_one _).symm
        rw [heq] at h1
        exact h1
      obtain ⟨hm0, hd1⟩ := succ_divmod_wrap hw hmod
      rw [hm0, hd1]
      congr 1
      · simp
      · push_cast
        ring
    · rw [if_neg hcase]
      obtain ⟨hm1, hd0⟩ := succ_divmod_step (not_le.mp hcase)
      rw [hm1, hd0]
      congr 1
      push_cast
      ring

/-- Lists the first x_count * y_count positions of the begin() iterator:
they are exactly the points of the rectangle in row-major order. -/
theorem GridRectPoints.enum_eq_rectRowMajor (x0 y0 : Int) (w h : Nat)
    (hw : 0 < w) (hw64 : w < 2 ^ 64) :
    (List.range (w * h)).map (GridRectPoints.iterN x0 w ⟨x0, y0⟩) =
      rectRowMajor ⟨x0, y0⟩ w h := by
  induction h with
  | zero =>
    simp [rectRowMajor]
  | succ h ih =>
    rw [Nat.mul_succ, List.range_add, List.map_append, ih, List.map_map]
    unfold rectRowMajor
    rw [List.range_succ, List.flatMap_append, List.flatMap_cons,
      List.flatMap_nil, List.append_nil]
    congr 1
    apply List.map_congr_left
    intro i hi
    have hi2 : i < w := List.mem_range.mp hi
    rw [Function.comp_apply,
      GridRectPoints.iterN_from_begin x0 y0 w hw hw64 (w * h + i)]
    congr 1
    · rw [Nat.mul_add_mod, Nat.mod_eq_of_lt hi2]
    · rw [Nat.mul_add_div hw, Nat.div_eq_of_lt hi2, Nat.add_zero]

/-- C1: for every starting point and positive width and height (the
width within the size_t range), the region iterator starting at the
anchor visits, across its first width * height increments, exactly the
points (begin.x + i, begin.y + j) in row-major order (j outer from 0 to
height-1, i inner from 0 to width-1, wrapping to the first column at each
row end); the position after width * height increments is the first one
equal to the end() sentinel, so comparison against the sentinel
terminates the iteration after exactly those points; and the sentinel is
the point (begin.x, begin.y + height). -/
theorem grid_rect_points_row_major_enumeration (b : Point) (w h : Nat)
    (hw : 0 < w) (hh : 0 < h) (hw64 : w < 2 ^ 64) :
    (List.range (w * h)).map (GridRectPoints.iterN b.x w b) =
      rectRowMajor b w h ∧
    GridRectPoints.iterN b.x w b (w * h) =
      GridRectPoints.sentinel ⟨b, w, h⟩ ∧
    (∀ k, k < w * h →
      GridRectPoints.iterN b.x w b k ≠ GridRectPoints.sentinel ⟨b, w, h⟩) ∧
    GridRectPoints.sentinel ⟨b, w, h⟩ = ⟨b.x, b.y + (h : Int)⟩ := by
  obtain ⟨x0, y0⟩ := b
  refine ⟨GridRectPoints.enum_eq_rectRowMajor x0 y0 w h hw hw64, ?_, ?_,
    rfl⟩
  · rw [GridRectPoints.iterN_from_begin x0 y0 w hw hw64 (w * h),
      Nat.mul_mod_right, Nat.mul_div_cancel_left h hw]
    congr 1
    simp
  · intro k hk hEq
    rw [GridRectPoints.iterN_from_begin x0 y0 w hw hw64 k] at hEq
    rw [show GridRectPoints.sentinel ⟨⟨x0, y0⟩, w, h⟩ =
      ⟨x0, y0 + (h : Int)⟩ from rfl] at hEq
    injection hEq with e1 e2
    have hmod0 : k % w = 0 :=
      Nat.cast_eq_zero.mp (add_right_eq_self.mp e1)
    have hdivh : k / w = h := Nat.cast_inj.mp (add_left_cancel e2)
    have hsum := Nat.div_add_mod k w
    rw [hdivh, hmod0, Nat.add_zero] at hsum
    rw [← hsum] at hk
    exact lt_irrefl _ hk

/-- Witness for C1: the region anchored at (4, 7) with width 2 and
height 3 enumerates (4,7), (5,7), (4,8), (5,8), (4,9), (5,9) in that
order and its end sentinel is (4, 10). -/
theorem grid_rect_points_row_major_enumeration_witness :
    0 < 2 ∧ 0 < 3 ∧ 2 < 2 ^ 64 ∧
    (List.range (2 * 3)).map
        (GridRectPoints.iterN (4 : Int) 2 ⟨4, 7⟩) =
      [⟨4, 7⟩, ⟨5, 7⟩, ⟨4, 8⟩, ⟨5, 8⟩, ⟨4, 9⟩, ⟨5, 9⟩] ∧
    rectRowMajor ⟨4, 7⟩ 2 3 =
      [⟨4, 7⟩, ⟨5, 7⟩, ⟨4, 8⟩, ⟨5, 8⟩, ⟨4, 9⟩, ⟨5, 9⟩] ∧
    GridRectPoints.sentinel ⟨⟨4, 7⟩, 2, 3⟩ = ⟨4, 10⟩ := by
  have hth := grid_rect_points_row_major_enumeration ⟨4, 7⟩ 2 3
    (by decide) (by decide) (by norm_num)
  refine ⟨by decide, by decide, by norm_num, ?_, by decide, hth.2.2.2⟩
  exact hth.1.trans (by decide)

end Oatmeal
